import Mathlib

/-!
Verification development for the u3vdb host client (src/main.cpp).

The file shallowly embeds the parts of the program that the claims are
about: the U3VCP transport ack loops of `U3VDevice::readMemory` /
`U3VDevice::writeMemory`, the `TerminalClient` session functions
(`initialize`, `ensureAuth`, `ensureSession`, `reset`, `lock`), the
file-transfer helpers (`prepareFilePath`, the upload/download data pumps),
the V2 interactive loop's per-byte input processing, the one-shot runner
dispatch, and the tail of `main` after the terminal has been initialized.

Device behaviour (what each USB read returns, whether each USB write
succeeds) is modelled as an oracle: a list of replies consumed in
interaction order.  Wall-clock deadlines of polling loops are modelled by
exhausting the reply list.  Every host-side register access is recorded as
an event so that claims about which registers are written can be stated
over the produced trace.
-/

/-- Magic constant of every UVCP frame header (main.cpp line 44). -/
def MAGIC : Nat := 0x43563355

/-- UVCP command code READ_MEMORY_ACK (main.cpp line 49). -/
def COMMAND_READ_MEMORY_ACK : Nat := 0x0801

/-- UVCP command code WRITE_MEMORY_ACK (main.cpp line 51). -/
def COMMAND_WRITE_MEMORY_ACK : Nat := 0x0803

/-- UVCP command code PENDING_ACK (main.cpp line 52). -/
def COMMAND_PENDING_ACK : Nat := 0x0805

/-- Terminal register bank base address (main.cpp line 118). -/
def kTerminalBaseAddr : Nat := 0x30000

/-- Expected terminal magic value "TERM" (main.cpp line 117). -/
def kTerminalMagic : Nat := 0x5445524D

/-- Status/Control register address (main.cpp line 120). -/
def kTerminalStatusAddr : Nat := kTerminalBaseAddr + 0x8

/-- ChunkHint register address (main.cpp line 122). -/
def kTerminalChunkHintAddr : Nat := kTerminalBaseAddr + 0x10

/-- AuthStatus register address (main.cpp line 123). -/
def kTerminalAuthStatusAddr : Nat := kTerminalBaseAddr + 0x14

/-- AuthCmd register address (main.cpp line 124). -/
def kTerminalAuthCmdAddr : Nat := kTerminalBaseAddr + 0x18

/-- AuthBuf register address (main.cpp line 125). -/
def kTerminalAuthBufAddr : Nat := kTerminalBaseAddr + 0x1C

/-- TTY data window address (main.cpp line 126). -/
def kTerminalDataAddr : Nat := kTerminalBaseAddr + 0x100

/-- FileCmd register address (main.cpp line 128). -/
def kTerminalFileCmdAddr : Nat := kTerminalBaseAddr + 0x40

/-- FileStatus register address (main.cpp line 129). -/
def kTerminalFileStatusAddr : Nat := kTerminalBaseAddr + 0x44

/-- FileDataAvail register address (main.cpp line 135). -/
def kTerminalFileDataAvailAddr : Nat := kTerminalBaseAddr + 0x5C

/-- FilePath staging area address (main.cpp line 136). -/
def kTerminalFilePathAddr : Nat := kTerminalBaseAddr + 0x60

/-- Capacity of the FilePath staging area in bytes (main.cpp line 137). -/
def kTerminalFilePathCapacity : Nat := 0x60

/-- FileData window address (main.cpp line 138). -/
def kTerminalFileDataAddr : Nat := kTerminalBaseAddr + 0xC0

/-- Maximum bytes per FileData transaction (main.cpp line 139). -/
def kTerminalFileDataWindow : Nat := 0x40

/-- Status bit READY (main.cpp line 141). -/
def kStatusReady : Nat := 1

/-- Control bit START (main.cpp line 147). -/
def kCtrlStart : Nat := 1

/-- Control bit RESET (main.cpp line 148). -/
def kCtrlReset : Nat := 2

/-- Control bit CLEAR_FLAGS (main.cpp line 151). -/
def kCtrlClearFlags : Nat := 16

/-- Control bit ECHO_ENABLE (main.cpp line 152). -/
def kCtrlEchoEnable : Nat := 32

/-- Control bit ECHO_DISABLE (main.cpp line 153). -/
def kCtrlEchoDisable : Nat := 64

/-- FileCmd value Reset (main.cpp line 160). -/
def kFileCmdReset : Nat := 4

/-- FileStatus bit ERROR (main.cpp line 164). -/
def kFileStatusError : Nat := 2

/-- FileStatus bit EOF (main.cpp line 165). -/
def kFileStatusEof : Nat := 4

/-- Byte values of a Lean string literal, used to embed the C++ string
constants of the source ("exit", "u3vget", "u3vput"). -/
def bytesOf (s : String) : List Nat := s.data.map Char.toNat

/-! ## U3VCP transport (U3VDevice::readMemory / writeMemory, main.cpp 441-593) -/

/-- A received UVCP frame as the ack loops interpret the 65536-byte receive
buffer: the header fields `magic`, `id`, `command`, `size`, plus the three
payload interpretations the code casts the same buffer to
(`timeout_ms` of a `UVCPPendingAck`, `bytes_written` of a
`UVCPWriteMemoryAck`, and the `data` region of a `UVCPReadMemoryAck`,
given as the function from byte index to byte value so that any number of
bytes can be taken from the buffer, as the code does). -/
structure RxFrame where
  magic : Nat
  id : Nat
  command : Nat
  size : Nat
  timeout_ms : Nat
  bytes_written : Nat
  data : Nat → Nat

/-- Transport-level failure modes of the ack loops (each corresponds to one
`return false` diagnostic branch in main.cpp 465-510 and 552-592). -/
inductive UvcpError
  | BulkIo
  | BadMagic
  | IdMismatch
  | TooManyPending
  | UnexpectedCommand
  | SizeMismatch
deriving DecidableEq

/-- Ack-receive loop of `U3VDevice::readMemory` (main.cpp 465-510).
`pl` is the C++ `pendingLoops` counter, the frame list is the sequence of
frames successive `bulkReceive` calls deliver (an empty list models a bulk
failure), the result pairs the outcome with the list of sleep durations
(milliseconds) performed for PENDING_ACK frames. -/
def readMemoryLoop (reqId nbytes pl : Nat) : List RxFrame → Except UvcpError (List Nat) × List Nat
  | [] => (.error .BulkIo, [])
  | f :: rest =>
    if f.magic ≠ MAGIC then (.error .BadMagic, [])
    else if f.id ≠ reqId then (.error .IdMismatch, [])
    else if f.command = COMMAND_PENDING_ACK then
      if pl + 1 > 5 then (.error .TooManyPending, [])
      else ((readMemoryLoop reqId nbytes (pl + 1) rest).1,
            (if f.timeout_ms = 0 then 1 else f.timeout_ms) ::
              (readMemoryLoop reqId nbytes (pl + 1) rest).2)
    else if f.command ≠ COMMAND_READ_MEMORY_ACK then (.error .UnexpectedCommand, [])
    else if f.size ≠ nbytes then (.error .SizeMismatch, [])
    else (.ok ((List.range nbytes).map f.data), [])

/-- `U3VDevice::readMemory` (main.cpp 441-511): a zero-byte read returns an
empty vector without any transport interaction; otherwise the ack loop
runs with `pendingLoops = 0`. -/
def readMemory (reqId nbytes : Nat) (frames : List RxFrame) :
    Except UvcpError (List Nat) × List Nat :=
  if nbytes = 0 then (.ok [], [])
  else readMemoryLoop reqId nbytes 0 frames

/-- Ack-receive loop of `U3VDevice::writeMemory` (main.cpp 552-592), same
conventions as `readMemoryLoop`; the final ack must report
`bytes_written` equal to the number of bytes sent. -/
def writeMemoryLoop (reqId nbytes pl : Nat) : List RxFrame → Except UvcpError Unit × List Nat
  | [] => (.error .BulkIo, [])
  | f :: rest =>
    if f.magic ≠ MAGIC then (.error .BadMagic, [])
    else if f.id ≠ reqId then (.error .IdMismatch, [])
    else if f.command = COMMAND_PENDING_ACK then
      if pl + 1 > 5 then (.error .TooManyPending, [])
      else ((writeMemoryLoop reqId nbytes (pl + 1) rest).1,
            (if f.timeout_ms = 0 then 1 else f.timeout_ms) ::
              (writeMemoryLoop reqId nbytes (pl + 1) rest).2)
    else if f.command ≠ COMMAND_WRITE_MEMORY_ACK then (.error .UnexpectedCommand, [])
    else if f.bytes_written ≠ nbytes then (.error .SizeMismatch, [])
    else (.ok (), [])

/-- A PENDING_ACK frame with matching magic and id and the given
`timeout_ms`. -/
def pendingFrame (reqId t : Nat) : RxFrame :=
  ⟨MAGIC, reqId, COMMAND_PENDING_ACK, 4, t, 0, fun _ => 0⟩

/-- A READ_MEMORY_ACK frame with matching magic and id, reporting payload
size `nbytes` and carrying payload `d`. -/
def readAckFrame (reqId nbytes : Nat) (d : Nat → Nat) : RxFrame :=
  ⟨MAGIC, reqId, COMMAND_READ_MEMORY_ACK, nbytes, 0, 0, d⟩

/-- A WRITE_MEMORY_ACK frame with matching magic and id, reporting
`bytes_written = nbytes`. -/
def writeAckFrame (reqId nbytes : Nat) : RxFrame :=
  ⟨MAGIC, reqId, COMMAND_WRITE_MEMORY_ACK, 4, 0, nbytes, fun _ => 0⟩

/-! ## Device interaction traces for the TerminalClient layer -/

/-- One host-visible device interaction.  `writeReg` is
`TerminalClient::writeRegister` / `U3VDevice::writeRegister` (a 4-byte
write of one 32-bit value), `writeMem` an arbitrary byte-range write,
`readReg` a 32-bit register read, `readMem` a byte-range read of the given
length, `shutdown` the release of the USB device. -/
inductive Ev
  | readReg (addr : Nat)
  | readMem (addr len : Nat)
  | writeReg (addr v : Nat)
  | writeMem (addr : Nat) (data : List Nat)
  | shutdown
deriving DecidableEq

/-- One device reply consumed by a host interaction: `ok v` is a successful
read returning `v` (for writes `v` is ignored), `err` a failed transfer. -/
inductive Reply
  | ok (v : Nat)
  | err
deriving DecidableEq

/-! ## TerminalClient session functions (main.cpp 659-783) -/

/-- Control word written by `ensureSession` (main.cpp 704-709):
`START | CLEAR_FLAGS` plus exactly one echo bit chosen by `echoEnabled_`. -/
def sessionStartCtrl (echo : Bool) : Nat :=
  (kCtrlStart ||| kCtrlClearFlags) |||
    (if echo then kCtrlEchoEnable else kCtrlEchoDisable)

/-- Control word written by `reset` (main.cpp 732-737):
`RESET | CLEAR_FLAGS` plus exactly one echo bit chosen by `echoEnabled_`. -/
def resetCtrl (echo : Bool) : Nat :=
  (kCtrlReset ||| kCtrlClearFlags) |||
    (if echo then kCtrlEchoEnable else kCtrlEchoDisable)

/-- Tail of `TerminalClient::ensureAuth` (main.cpp 768-775) after the
password was staged and the auth command issued: the re-read of
AuthStatus.  The reply list is the remaining device oracle. -/
def ensureAuthRecheck (pw : List Nat) : List Reply → Bool × List Ev × List Reply
  | [] => (false,
      [Ev.readReg kTerminalAuthStatusAddr, Ev.writeMem kTerminalAuthBufAddr pw,
       Ev.writeReg kTerminalAuthCmdAddr 1, Ev.readReg kTerminalAuthStatusAddr], [])
  | .err :: rest => (false,
      [Ev.readReg kTerminalAuthStatusAddr, Ev.writeMem kTerminalAuthBufAddr pw,
       Ev.writeReg kTerminalAuthCmdAddr 1, Ev.readReg kTerminalAuthStatusAddr], rest)
  | .ok a :: rest => (a != 0,
      [Ev.readReg kTerminalAuthStatusAddr, Ev.writeMem kTerminalAuthBufAddr pw,
       Ev.writeReg kTerminalAuthCmdAddr 1, Ev.readReg kTerminalAuthStatusAddr], rest)

/-- Step of `TerminalClient::ensureAuth` (main.cpp 764-766) issuing the
auth command: `writeRegister(kTerminalAuthCmdAddr, 1)`. -/
def ensureAuthCmdWrite (pw : List Nat) : List Reply → Bool × List Ev × List Reply
  | [] => (false,
      [Ev.readReg kTerminalAuthStatusAddr, Ev.writeMem kTerminalAuthBufAddr pw,
       Ev.writeReg kTerminalAuthCmdAddr 1], [])
  | .err :: rest => (false,
      [Ev.readReg kTerminalAuthStatusAddr, Ev.writeMem kTerminalAuthBufAddr pw,
       Ev.writeReg kTerminalAuthCmdAddr 1], rest)
  | .ok _ :: rest => ensureAuthRecheck pw rest

/-- Step of `TerminalClient::ensureAuth` (main.cpp 759-763) staging the
password into AuthBuf. -/
def ensureAuthBufWrite (pw : List Nat) : List Reply → Bool × List Ev × List Reply
  | [] => (false,
      [Ev.readReg kTerminalAuthStatusAddr, Ev.writeMem kTerminalAuthBufAddr pw], [])
  | .err :: rest => (false,
      [Ev.readReg kTerminalAuthStatusAddr, Ev.writeMem kTerminalAuthBufAddr pw], rest)
  | .ok _ :: rest => ensureAuthCmdWrite pw rest

/-- `TerminalClient::ensureAuth` (main.cpp 747-776): read AuthStatus; if
already non-zero succeed; else require a non-empty password, stage it,
write `1` to AuthCmd and re-check. -/
def ensureAuth (pw : List Nat) : List Reply → Bool × List Ev × List Reply
  | [] => (false, [Ev.readReg kTerminalAuthStatusAddr], [])
  | .err :: rest => (false, [Ev.readReg kTerminalAuthStatusAddr], rest)
  | .ok a :: rest =>
    if a ≠ 0 then (true, [Ev.readReg kTerminalAuthStatusAddr], rest)
    else if pw = [] then (false, [Ev.readReg kTerminalAuthStatusAddr], rest)
    else ensureAuthBufWrite pw rest

/-- Status-polling loop of `ensureSession` (main.cpp 713-722).  The
2-second wall-clock deadline is modelled by exhaustion of the reply list:
each iteration consumes one Status read. -/
def pollReady : List Reply → Bool × List Ev
  | [] => (false, [])
  | .err :: _ => (false, [Ev.readReg kTerminalStatusAddr])
  | .ok v :: rest =>
    if v &&& kStatusReady ≠ 0 then (true, [Ev.readReg kTerminalStatusAddr])
    else ((pollReady rest).1, Ev.readReg kTerminalStatusAddr :: (pollReady rest).2)

/-- Part of `ensureSession` (main.cpp 710-722): the control-word write that
starts the session, followed by the READY poll. -/
def sessionStartWrite (echo : Bool) : List Reply → Bool × List Ev
  | [] => (false, [Ev.writeReg kTerminalStatusAddr (sessionStartCtrl echo)])
  | .err :: _ => (false, [Ev.writeReg kTerminalStatusAddr (sessionStartCtrl echo)])
  | .ok _ :: rest =>
    ((pollReady rest).1,
     Ev.writeReg kTerminalStatusAddr (sessionStartCtrl echo) :: (pollReady rest).2)

/-- Part of `ensureSession` (main.cpp 697-722) after authentication: read
Status; if READY already set succeed, otherwise write the start control
word and poll. -/
def sessionStart (echo : Bool) : List Reply → Bool × List Ev
  | [] => (false, [Ev.readReg kTerminalStatusAddr])
  | .err :: _ => (false, [Ev.readReg kTerminalStatusAddr])
  | .ok s :: rest =>
    if s &&& kStatusReady ≠ 0 then (true, [Ev.readReg kTerminalStatusAddr])
    else ((sessionStartWrite echo rest).1,
          Ev.readReg kTerminalStatusAddr :: (sessionStartWrite echo rest).2)

/-- `TerminalClient::ensureSession` (main.cpp 690-725) with
`initialized_ = true` (as at every call site the claims concern):
authenticate, then establish the READY state. -/
def ensureSession (echo : Bool) (pw : List Nat) (rs : List Reply) : Bool × List Ev :=
  if (ensureAuth pw rs).1 = false then (false, (ensureAuth pw rs).2.1)
  else ((sessionStart echo (ensureAuth pw rs).2.2).1,
        (ensureAuth pw rs).2.1 ++ (sessionStart echo (ensureAuth pw rs).2.2).2)

/-- `TerminalClient::reset` (main.cpp 727-743) with `initialized_ = true`:
write `RESET | CLEAR_FLAGS | echo` to Status/Control, sleep 200 ms, then
fall into `ensureSession`. -/
def resetSession (echo : Bool) (pw : List Nat) : List Reply → Bool × List Ev
  | [] => (false, [Ev.writeReg kTerminalStatusAddr (resetCtrl echo)])
  | .err :: _ => (false, [Ev.writeReg kTerminalStatusAddr (resetCtrl echo)])
  | .ok _ :: rest =>
    ((ensureSession echo pw rest).1,
     Ev.writeReg kTerminalStatusAddr (resetCtrl echo) :: (ensureSession echo pw rest).2)

/-- Tail of `main` (main.cpp 1670-1692) after `terminal.initialize()`
succeeded and the echo mode was chosen: optionally reset the session
(returning immediately on failure), run the selected loop or the one-shot
runner (its device interactions abstracted as `loopTrace`), then
`terminal.lock()` (a write of `0` to AuthCmd, main.cpp 778-783) and
`device.shutdown()` — the latter also running from the `U3VDevice`
destructor on the early-return paths. -/
def mainTail (doReset echo : Bool) (pw : List Nat) (rs : List Reply)
    (loopTrace : List Ev) : List Ev :=
  if doReset then
    if (resetSession echo pw rs).1 then
      (resetSession echo pw rs).2 ++ loopTrace ++
        [Ev.writeReg kTerminalAuthCmdAddr 0, Ev.shutdown]
    else (resetSession echo pw rs).2 ++ [Ev.shutdown]
  else loopTrace ++ [Ev.writeReg kTerminalAuthCmdAddr 0, Ev.shutdown]

/-! ## TerminalClient::initialize (main.cpp 659-688) -/

/-- Result of a successful `TerminalClient::initialize`: the probed
firmware version and the negotiated chunk hint. -/
structure TermInit where
  version : Nat
  chunkHint : Nat
deriving DecidableEq

/-- `TerminalClient::initialize` (main.cpp 659-688).  `hdr` is the result
of the 2-register read at the bank base (`none` = bulk failure), `verReg`
the optional explicit Version register read, `chunkReg` the ChunkHint
register read (`none` = read failure, in which case `readRegisterOr`
returns the current `chunkHint_`, whose initial value is 4096,
main.cpp 1483).  A zero chunk hint falls back to 512. -/
def initTerminal (hdr : Option (Nat × Nat)) (verReg : Option Nat) (chunkReg : Option Nat) :
    Option TermInit :=
  match hdr with
  | none => none
  | some (m, v0) =>
    if m ≠ kTerminalMagic then none
    else
      some { version :=
               match verReg with
               | some v => if v ≠ 0 then v else v0
               | none => v0,
             chunkHint :=
               match chunkReg with
               | some v => if v = 0 then 512 else v
               | none => 4096 }

/-! ## Tokenizer and one-shot runner (main.cpp 854-873, 1108-1131, 1499-1507) -/

/-- Whitespace as `std::istringstream` extraction skips it ("C" locale
isspace): space, tab, newline, vertical tab, form feed, carriage return. -/
def isWhite (c : Nat) : Bool :=
  c == 32 || c == 9 || c == 10 || c == 11 || c == 12 || c == 13

/-- Accumulator-passing worker for `splitTokens`. -/
def splitTokensAux : List Nat → List Nat → List (List Nat)
  | [], acc => if acc = [] then [] else [acc.reverse]
  | c :: rest, acc =>
    if isWhite c then
      if acc = [] then splitTokensAux rest []
      else acc.reverse :: splitTokensAux rest []
    else splitTokensAux rest (c :: acc)

/-- `splitTokens` (main.cpp 1499-1507): split a byte string into
whitespace-separated tokens. -/
def splitTokens (line : List Nat) : List (List Nat) :=
  splitTokensAux line []

/-- What `TerminalClient::runOnce` (main.cpp 854-873) does with a command
line, as decided by `handleFileTransferCommand` (main.cpp 1108-1131). -/
inductive OneShot
  | download (remote loc : List Nat)
  | upload (loc remote : List Nat)
  | usage
  | sendAndDrain
deriving DecidableEq

/-- Dispatch of `runOnce` / `handleFileTransferCommand`: an empty token
list or a first token other than `u3vget`/`u3vput` is not handled and the
line is sent and drained; a `u3vget`/`u3vput` with any token count other
than 3 prints a usage message; otherwise the corresponding transfer runs
with the two path arguments. -/
def runOnceAction (line : List Nat) : OneShot :=
  match splitTokens line with
  | [] => .sendAndDrain
  | op :: rest =>
    if op ≠ bytesOf "u3vget" ∧ op ≠ bytesOf "u3vput" then .sendAndDrain
    else if op = bytesOf "u3vget" then
      if rest.length ≠ 2 then .usage else .download (rest.headD []) (rest.getD 1 [])
    else
      if rest.length ≠ 2 then .usage else .upload (rest.headD []) (rest.getD 1 [])

/-- Success value returned by `runOnce`, given the outcomes of the possible
sub-operations: a transfer's success is passed through
(`handleFileTransferCommand` returning false makes `runOnce` return
false, and `handled = true` otherwise short-circuits to success); a usage
error still returns true; an unhandled line succeeds iff both
`sendCommand` and `drainOutput` succeed. -/
def runOnceResult (line : List Nat) (dlOk ulOk sendOk drainOk : Bool) : Bool :=
  match runOnceAction line with
  | .download _ _ => dlOk
  | .upload _ _ => ulOk
  | .usage => true
  | .sendAndDrain => sendOk && drainOk

/-! ## V2 interactive loop input processing (main.cpp 1009-1071) -/

/-- `TerminalClient::tryHandleFileTransferCommand` (main.cpp 1096-1106):
true iff the line's first token is `u3vget` or `u3vput`. -/
def tryFileTransfer (line : List Nat) : Bool :=
  match splitTokens line with
  | [] => false
  | t :: _ => t == bytesOf "u3vget" || t == bytesOf "u3vput"

/-- State carried across the per-byte processing of one stdin read burst in
`interactiveLoopV2`: the local line buffer `currentLine`, the pending
`toSend` buffer, the list of payloads written so far to the TTY Data
register, the local-exit flag, and the lines on which a file transfer was
launched. -/
structure V2State where
  currentLine : List Nat
  toSend : List Nat
  writes : List (List Nat)
  exitRequested : Bool
  ftRuns : List (List Nat)
deriving DecidableEq

/-- Per-byte processing of the V2 interactive loop (main.cpp 1014-1061):
Ctrl+] (0x1d) requests exit without forwarding; CR/LF triggers the
`exit` interceptor (four backspaces flushed to the TTY Data register, then
exit) or the file-transfer interceptor (one backspace per line character
plus a newline flushed, then the transfer), else clears the line and is
forwarded; backspace (0x7f or 8) pops the line buffer and is forwarded;
printable bytes (0x20-0x7e) extend the line buffer and are forwarded;
any other byte is forwarded unchanged. -/
def v2Step (s : V2State) (ch : Nat) : V2State :=
  if ch = 0x1d then { s with exitRequested := true }
  else if ch = 13 ∨ ch = 10 then
    if s.currentLine = bytesOf "exit" then
      { currentLine := [], toSend := [],
        writes := s.writes ++ [s.toSend ++ [8, 8, 8, 8]],
        exitRequested := true, ftRuns := s.ftRuns }
    else if tryFileTransfer s.currentLine then
      { currentLine := [], toSend := [],
        writes := s.writes ++ [s.toSend ++ List.replicate s.currentLine.length 8 ++ [10]],
        exitRequested := s.exitRequested, ftRuns := s.ftRuns ++ [s.currentLine] }
    else { s with currentLine := [], toSend := s.toSend ++ [ch] }
  else if ch = 0x7f ∨ ch = 8 then
    { s with currentLine := s.currentLine.dropLast, toSend := s.toSend ++ [ch] }
  else if 32 ≤ ch ∧ ch ≤ 126 then
    { s with currentLine := s.currentLine ++ [ch], toSend := s.toSend ++ [ch] }
  else { s with toSend := s.toSend ++ [ch] }

/-- Processing of one full stdin read burst (main.cpp 1009-1071): fold
`v2Step` over the received bytes starting from line buffer `line0`, then
flush any non-empty `toSend` remainder to the TTY Data register. -/
def v2Burst (line0 : List Nat) (input : List Nat) : V2State :=
  let s := input.foldl v2Step ⟨line0, [], [], false, []⟩
  if s.toSend = [] then s
  else { s with writes := s.writes ++ [s.toSend], toSend := [] }

/-! ## File transfer helpers (main.cpp 1218-1236, 1274-1433) -/

/-- Failure modes of `prepareFilePath` (main.cpp 1218-1236). -/
inductive FileXferError
  | PathRequired
  | PathTooLong
  | WriteFailed
deriving DecidableEq

/-- `TerminalClient::prepareFilePath` (main.cpp 1218-1236): an empty remote
path fails before any register write; then FileCmd Reset is written; a
path not shorter than the 0x60-byte capacity fails; otherwise the path is
NUL-padded to the full capacity and written to the FilePath area.
`resetWriteOk` / `pathWriteOk` are the outcomes of the two device
writes. -/
def prepareFilePath (p : List Nat) (resetWriteOk pathWriteOk : Bool) :
    List Ev × Except FileXferError Unit :=
  if p = [] then ([], .error .PathRequired)
  else if resetWriteOk = false then
    ([Ev.writeReg kTerminalFileCmdAddr kFileCmdReset], .error .WriteFailed)
  else if kTerminalFilePathCapacity ≤ p.length then
    ([Ev.writeReg kTerminalFileCmdAddr kFileCmdReset], .error .PathTooLong)
  else
    ([Ev.writeReg kTerminalFileCmdAddr kFileCmdReset,
      Ev.writeMem kTerminalFilePathAddr
        (p ++ List.replicate (kTerminalFilePathCapacity - p.length) 0)],
     if pathWriteOk then .ok () else .error .WriteFailed)

/-- Fuel-indexed worker for `uploadChunks`; the fuel only bounds the
recursion and `data.length` fuel always suffices. -/
def uploadChunksGo : Nat → List Nat → List (List Nat)
  | 0, _ => []
  | fuel + 1, data =>
    if data = [] then []
    else data.take kTerminalFileDataWindow ::
      uploadChunksGo fuel (data.drop kTerminalFileDataWindow)

/-- Slicing of the local source performed by `performFileUpload`
(main.cpp 1384-1398): each loop iteration reads at most 0x40 bytes
(`std::array<char, kTerminalFileDataWindow>`) from the stream and writes
exactly the bytes obtained to the FileData window. -/
def uploadChunks (data : List Nat) : List (List Nat) :=
  uploadChunksGo data.length data

/-- Writes to the FileData window issued by the upload loop: one `writeMem`
per chunk. -/
def uploadWrites (data : List Nat) : List Ev :=
  (uploadChunks data).map (Ev.writeMem kTerminalFileDataAddr)

/-- Data-pump loop of `performFileDownload` (main.cpp 1300-1343), recorded
as the reads it issues.  The reply list alternates per iteration: a
FileDataAvail value, and — only when it is zero — a FileStatus value
(ERROR or EOF ends the loop, otherwise it continues).  A non-zero avail
is passed to `U3VDevice::readMemory` cast to `uint16_t`, i.e. the host
requests `avail % 2^16` bytes from the FileData window with no clamp to
the 0x40 window size. -/
def downloadPump : List Nat → List Ev
  | [] => []
  | [0] => [Ev.readReg kTerminalFileDataAvailAddr, Ev.readReg kTerminalFileStatusAddr]
  | 0 :: st :: rest =>
    if st &&& kFileStatusError ≠ 0 then
      [Ev.readReg kTerminalFileDataAvailAddr, Ev.readReg kTerminalFileStatusAddr]
    else if st &&& kFileStatusEof ≠ 0 then
      [Ev.readReg kTerminalFileDataAvailAddr, Ev.readReg kTerminalFileStatusAddr]
    else Ev.readReg kTerminalFileDataAvailAddr :: Ev.readReg kTerminalFileStatusAddr ::
      downloadPump rest
  | (n + 1) :: rest =>
    Ev.readReg kTerminalFileDataAvailAddr ::
      Ev.readMem kTerminalFileDataAddr ((n + 1) % 65536) :: downloadPump rest

/-! ## Write-classification predicates used by the invariant claims -/

/-- Exactly one of the two echo control bits is set in `v`. -/
def exactlyOneEchoBit (v : Nat) : Bool :=
  (v &&& (kCtrlEchoEnable ||| kCtrlEchoDisable) == kCtrlEchoEnable) ||
  (v &&& (kCtrlEchoEnable ||| kCtrlEchoDisable) == kCtrlEchoDisable)

/-- Event predicate: any register write to the Status/Control register sets
exactly one echo bit (other events are unconstrained). -/
def statusCtrlWriteOk (e : Ev) : Bool :=
  match e with
  | .writeReg a v => if a = kTerminalStatusAddr then exactlyOneEchoBit v else true
  | _ => true

/-- Event predicate: the event is not a write at all, or is a register
write targeting the Status/Control register. -/
def statusWritesOnly (e : Ev) : Bool :=
  match e with
  | .writeReg a _ => a == kTerminalStatusAddr
  | .writeMem _ _ => false
  | _ => true

/-- Event predicate: the event is not a lock command, i.e. not a write of
`0` to the AuthCmd register. -/
def noAuthLockWrite (e : Ev) : Bool :=
  match e with
  | .writeReg a v => !(a == kTerminalAuthCmdAddr && v == 0)
  | _ => true

/-! ## Theorems -/

/-- The sleep duration the ack loops compute from a pending ack,
`waitMs ? waitMs : 1`, equals `max timeout_ms 1`. -/
theorem sleep_eq_max (t : Nat) : (if t = 0 then 1 else t) = max t 1 := by
  rcases t with _ | n
  · rfl
  · rw [if_neg (Nat.succ_ne_zero n), Nat.max_eq_left (Nat.succ_le_succ (Nat.zero_le n))]

/-- Claim C1: in both `readMemory` and `writeMemory`, a PENDING_ACK frame
with matching magic and id makes the host sleep `max(timeout_ms, 1)`
milliseconds and receive again; five consecutive PENDING_ACK frames still
let the transaction complete, while a sixth makes it fail with
`TooManyPending` (after only five sleeps). -/
theorem pending_ack_retry_policy (t reqId nbytes : Nat) (d : Nat → Nat) (rest : List RxFrame) :
    readMemoryLoop reqId nbytes 0
        [pendingFrame reqId t, pendingFrame reqId t, pendingFrame reqId t,
         pendingFrame reqId t, pendingFrame reqId t, readAckFrame reqId nbytes d] =
      (.ok ((List.range nbytes).map d),
       [max t 1, max t 1, max t 1, max t 1, max t 1]) ∧
    readMemoryLoop reqId nbytes 0
        ([pendingFrame reqId t, pendingFrame reqId t, pendingFrame reqId t,
          pendingFrame reqId t, pendingFrame reqId t, pendingFrame reqId t] ++ rest) =
      (.error .TooManyPending, [max t 1, max t 1, max t 1, max t 1, max t 1]) ∧
    writeMemoryLoop reqId nbytes 0
        [pendingFrame reqId t, pendingFrame reqId t, pendingFrame reqId t,
         pendingFrame reqId t, pendingFrame reqId t, writeAckFrame reqId nbytes] =
      (.ok (), [max t 1, max t 1, max t 1, max t 1, max t 1]) ∧
    writeMemoryLoop reqId nbytes 0
        ([pendingFrame reqId t, pendingFrame reqId t, pendingFrame reqId t,
          pendingFrame reqId t, pendingFrame reqId t, pendingFrame reqId t] ++ rest) =
      (.error .TooManyPending, [max t 1, max t 1, max t 1, max t 1, max t 1]) := by
  refine ⟨?_, ?_, ?_, ?_⟩ <;>
    simp [readMemoryLoop, writeMemoryLoop, pendingFrame, readAckFrame, writeAckFrame,
      MAGIC, COMMAND_PENDING_ACK, COMMAND_READ_MEMORY_ACK, COMMAND_WRITE_MEMORY_ACK,
      sleep_eq_max]

/-- Whenever the read ack loop succeeds, the delivered byte list has
exactly the requested length. -/
theorem readMemoryLoop_ok_length (reqId nbytes : Nat) :
    ∀ (frames : List RxFrame) (pl : Nat) (out : List Nat),
      (readMemoryLoop reqId nbytes pl frames).1 = .ok out → out.length = nbytes := by
  intro frames
  induction frames with
  | nil => intro pl out h; simp [readMemoryLoop] at h
  | cons f rest ih =>
    intro pl out h
    simp only [readMemoryLoop] at h
    split_ifs at h with h1 h2 h3 h4 h5 <;>
      first
        | exact ih (pl + 1) out h
        | (simp at h; subst h; simp)

/-- Claim C2: for every `readMemory(address, size = N)` with `N > 0` that
succeeds, the delivered byte sequence has length exactly `N` (the loop
only succeeds on a READ_MEMORY_ACK whose reported payload size equals
`N`); an otherwise well-formed ack whose payload size differs from `N`
makes the operation fail with `SizeMismatch`. -/
theorem read_size_contract :
    (∀ (reqId nbytes : Nat) (frames : List RxFrame) (out sleeps : List Nat),
        0 < nbytes → readMemory reqId nbytes frames = (.ok out, sleeps) →
        out.length = nbytes) ∧
    (∀ (reqId nbytes sz t bw : Nat) (d : Nat → Nat), sz ≠ nbytes →
        readMemoryLoop reqId nbytes 0 [⟨MAGIC, reqId, COMMAND_READ_MEMORY_ACK, sz, t, bw, d⟩] =
          (.error .SizeMismatch, [])) := by
  constructor
  · intro reqId nbytes frames out sleeps hpos h
    rw [readMemory, if_neg (Nat.pos_iff_ne_zero.mp hpos)] at h
    exact readMemoryLoop_ok_length reqId nbytes frames 0 out (by rw [h])
  · intro reqId nbytes sz t bw d hne
    simp [readMemoryLoop, MAGIC, COMMAND_PENDING_ACK, COMMAND_READ_MEMORY_ACK, hne]

/-- Witness for C2: a concrete 2-byte read delivering `[7, 7]`, and a
concrete ack reporting size 5 against a 2-byte request failing with
`SizeMismatch`. -/
theorem read_size_contract_witness :
    ([7, 7] : List Nat).length = 2 ∧
    readMemoryLoop 1 2 0 [⟨MAGIC, 1, COMMAND_READ_MEMORY_ACK, 5, 0, 0, fun _ => 7⟩] =
      (.error .SizeMismatch, []) :=
  ⟨read_size_contract.1 1 2 [⟨MAGIC, 1, COMMAND_READ_MEMORY_ACK, 2, 0, 0, fun _ => 7⟩]
      [7, 7] [] (by decide) rfl,
   read_size_contract.2 1 2 5 0 0 (fun _ => 7) (by decide)⟩

/-- The READY-poll loop performs no writes: every event it records is the
Status register read. -/
theorem pollReady_all (p : Ev → Bool) (hp : p (Ev.readReg kTerminalStatusAddr) = true) :
    ∀ rs : List Reply, ((pollReady rs).2).all p = true := by
  intro rs
  induction rs with
  | nil => rfl
  | cons r rest ih =>
    cases r with
    | err => simp [pollReady, hp]
    | ok v =>
      by_cases h : v &&& kStatusReady ≠ 0
      · simp [pollReady, h, hp]
      · simp [pollReady, h, hp, ih]

/-- Every event of the session-start write phase satisfies any predicate
holding on the Status read, the start control write and nothing else. -/
theorem sessionStartWrite_all (p : Ev → Bool) (echo : Bool)
    (hp : p (Ev.readReg kTerminalStatusAddr) = true)
    (hw : p (Ev.writeReg kTerminalStatusAddr (sessionStartCtrl echo)) = true) :
    ∀ rs : List Reply, ((sessionStartWrite echo rs).2).all p = true := by
  intro rs
  cases rs with
  | nil => simp [sessionStartWrite, hw]
  | cons r rest =>
    cases r with
    | err => simp [sessionStartWrite, hw]
    | ok v => simp [sessionStartWrite, hw, pollReady_all p hp rest]

/-- Every event of the session-start phase is the Status read, the start
control write, or a poll read. -/
theorem sessionStart_all (p : Ev → Bool) (echo : Bool)
    (hp : p (Ev.readReg kTerminalStatusAddr) = true)
    (hw : p (Ev.writeReg kTerminalStatusAddr (sessionStartCtrl echo)) = true) :
    ∀ rs : List Reply, ((sessionStart echo rs).2).all p = true := by
  intro rs
  cases rs with
  | nil => simp [sessionStart, hp]
  | cons r rest =>
    cases r with
    | err => simp [sessionStart, hp]
    | ok v =>
      by_cases h : v &&& kStatusReady ≠ 0
      · simp [sessionStart, h, hp]
      · simp [sessionStart, h, hp, sessionStartWrite_all p echo hp hw rest]

/-- Events of the auth re-check stage. -/
theorem ensureAuthRecheck_all (p : Ev → Bool) (pw : List Nat)
    (h1 : p (Ev.readReg kTerminalAuthStatusAddr) = true)
    (h2 : p (Ev.writeMem kTerminalAuthBufAddr pw) = true)
    (h3 : p (Ev.writeReg kTerminalAuthCmdAddr 1) = true) :
    ∀ rs : List Reply, ((ensureAuthRecheck pw rs).2.1).all p = true := by
  intro rs
  cases rs with
  | nil => simp [ensureAuthRecheck, h1, h2, h3]
  | cons r rest => cases r <;> simp [ensureAuthRecheck, h1, h2, h3]

/-- Events of the auth command-write stage. -/
theorem ensureAuthCmdWrite_all (p : Ev → Bool) (pw : List Nat)
    (h1 : p (Ev.readReg kTerminalAuthStatusAddr) = true)
    (h2 : p (Ev.writeMem kTerminalAuthBufAddr pw) = true)
    (h3 : p (Ev.writeReg kTerminalAuthCmdAddr 1) = true) :
    ∀ rs : List Reply, ((ensureAuthCmdWrite pw rs).2.1).all p = true := by
  intro rs
  cases rs with
  | nil => simp [ensureAuthCmdWrite, h1, h2, h3]
  | cons r rest =>
    cases r with
    | err => simp [ensureAuthCmdWrite, h1, h2, h3]
    | ok v => simpa [ensureAuthCmdWrite] using ensureAuthRecheck_all p pw h1 h2 h3 rest

/-- Events of the password-staging stage. -/
theorem ensureAuthBufWrite_all (p : Ev → Bool) (pw : List Nat)
    (h1 : p (Ev.readReg kTerminalAuthStatusAddr) = true)
    (h2 : p (Ev.writeMem kTerminalAuthBufAddr pw) = true)
    (h3 : p (Ev.writeReg kTerminalAuthCmdAddr 1) = true) :
    ∀ rs : List Reply, ((ensureAuthBufWrite pw rs).2.1).all p = true := by
  intro rs
  cases rs with
  | nil => simp [ensureAuthBufWrite, h1, h2, h3]
  | cons r rest =>
    cases r with
    | err => simp [ensureAuthBufWrite, h1, h2, h3]
    | ok v => simpa [ensureAuthBufWrite] using ensureAuthCmdWrite_all p pw h1 h2 h3 rest

/-- Every event of `ensureAuth` is the AuthStatus read, the AuthBuf staging
write, or the AuthCmd `1` write. -/
theorem ensureAuth_all (p : Ev → Bool) (pw : List Nat)
    (h1 : p (Ev.readReg kTerminalAuthStatusAddr) = true)
    (h2 : p (Ev.writeMem kTerminalAuthBufAddr pw) = true)
    (h3 : p (Ev.writeReg kTerminalAuthCmdAddr 1) = true) :
    ∀ rs : List Reply, ((ensureAuth pw rs).2.1).all p = true := by
  intro rs
  cases rs with
  | nil => simp [ensureAuth, h1]
  | cons r rest =>
    cases r with
    | err => simp [ensureAuth, h1]
    | ok a =>
      by_cases ha : a ≠ 0
      · simp [ensureAuth, ha, h1]
      · by_cases hpw : pw = []
        · simp [ensureAuth, ha, hpw, h1]
        · simpa [ensureAuth, ha, hpw] using ensureAuthBufWrite_all p pw h1 h2 h3 rest

/-- Trace of `ensureSession` under a predicate holding on all five event
shapes it can emit. -/
theorem ensureSession_all (p : Ev → Bool) (echo : Bool) (pw : List Nat)
    (h1 : p (Ev.readReg kTerminalAuthStatusAddr) = true)
    (h2 : p (Ev.writeMem kTerminalAuthBufAddr pw) = true)
    (h3 : p (Ev.writeReg kTerminalAuthCmdAddr 1) = true)
    (hp : p (Ev.readReg kTerminalStatusAddr) = true)
    (hw : p (Ev.writeReg kTerminalStatusAddr (sessionStartCtrl echo)) = true) :
    ∀ rs : List Reply, ((ensureSession echo pw rs).2).all p = true := by
  intro rs
  by_cases h : (ensureAuth pw rs).1 = false
  · simp [ensureSession, h, ensureAuth_all p pw h1 h2 h3 rs]
  · simp [ensureSession, h, List.all_append, ensureAuth_all p pw h1 h2 h3 rs,
      sessionStart_all p echo hp hw ((ensureAuth pw rs).2.2)]

/-- Trace of `resetSession` under a predicate holding on all six event
shapes it can emit. -/
theorem resetSession_all (p : Ev → Bool) (echo : Bool) (pw : List Nat)
    (h1 : p (Ev.readReg kTerminalAuthStatusAddr) = true)
    (h2 : p (Ev.writeMem kTerminalAuthBufAddr pw) = true)
    (h3 : p (Ev.writeReg kTerminalAuthCmdAddr 1) = true)
    (hp : p (Ev.readReg kTerminalStatusAddr) = true)
    (hw : p (Ev.writeReg kTerminalStatusAddr (sessionStartCtrl echo)) = true)
    (hr : p (Ev.writeReg kTerminalStatusAddr (resetCtrl echo)) = true) :
    ∀ rs : List Reply, ((resetSession echo pw rs).2).all p = true := by
  intro rs
  cases rs with
  | nil => simp [resetSession, hr]
  | cons r rest =>
    cases r with
    | err => simp [resetSession, hr]
    | ok v => simp [resetSession, hr, ensureSession_all p echo pw h1 h2 h3 hp hw rest]

/-- Claim C9: every control word the host writes to the Status/Control
register — in `ensureSession` and in `reset` — sets exactly one of
ECHO_ENABLE and ECHO_DISABLE, never both: the two control words
themselves satisfy `exactlyOneEchoBit`, and every Status/Control write in
any trace of the two functions does. -/
theorem ctrl_echo_exclusive (echo : Bool) (pw : List Nat) (rs rs2 : List Reply) :
    exactlyOneEchoBit (sessionStartCtrl echo) = true ∧
    exactlyOneEchoBit (resetCtrl echo) = true ∧
    ((ensureSession echo pw rs).2).all statusCtrlWriteOk = true ∧
    ((resetSession echo pw rs2).2).all statusCtrlWriteOk = true := by
  have hb1 : statusCtrlWriteOk (Ev.readReg kTerminalAuthStatusAddr) = true := rfl
  have hb2 : statusCtrlWriteOk (Ev.writeMem kTerminalAuthBufAddr pw) = true := rfl
  have hb3 : statusCtrlWriteOk (Ev.writeReg kTerminalAuthCmdAddr 1) = true := by decide
  have hb4 : statusCtrlWriteOk (Ev.readReg kTerminalStatusAddr) = true := rfl
  have hb5 : statusCtrlWriteOk (Ev.writeReg kTerminalStatusAddr (sessionStartCtrl echo)) = true := by
    cases echo <;> decide
  have hb6 : statusCtrlWriteOk (Ev.writeReg kTerminalStatusAddr (resetCtrl echo)) = true := by
    cases echo <;> decide
  exact ⟨by cases echo <;> decide, by cases echo <;> decide,
    ensureSession_all _ echo pw hb1 hb2 hb3 hb4 hb5 rs,
    resetSession_all _ echo pw hb1 hb2 hb3 hb4 hb5 hb6 rs2⟩

/-- Claim C10 counterexample: when the device reports AuthStatus 0 after
the reset control write (and a password is set), `reset` does write the
AuthBuf and AuthCmd registers — via the `ensureSession`/`ensureAuth` it
falls into — contradicting the claim that it never writes them. -/
theorem reset_reauth_counterexample :
    Ev.writeReg kTerminalAuthCmdAddr 1 ∈
      (resetSession false [112] [.ok 0, .ok 0, .ok 1, .ok 1]).2 ∧
    Ev.writeMem kTerminalAuthBufAddr [112] ∈
      (resetSession false [112] [.ok 0, .ok 0, .ok 1, .ok 1]).2 := by
  decide

/-- Claim C10 (amended): `reset` never writes `0` to AuthCmd (it never
locks), and when the device still reports a nonzero AuthStatus at the
auth check inside the `ensureSession` that `reset` falls into, every
write `reset` performs targets the Status/Control register only — so a
device that remains authenticated across the reset is untouched on the
auth registers.  When AuthStatus reads 0, however, `reset` re-authenticates
and does write AuthBuf and AuthCmd = 1. -/
theorem reset_preserves_auth_when_authed :
    (∀ (echo : Bool) (pw : List Nat) (r0 : Reply) (a : Nat) (rest : List Reply), a ≠ 0 →
        ((resetSession echo pw (r0 :: .ok a :: rest)).2).all statusWritesOnly = true) ∧
    (∀ (echo : Bool) (pw : List Nat) (rs : List Reply),
        ((resetSession echo pw rs).2).all noAuthLockWrite = true) := by
  constructor
  · intro echo pw r0 a rest ha
    have hso : ∀ v, statusWritesOnly (Ev.writeReg kTerminalStatusAddr v) = true := by
      intro v; simp [statusWritesOnly]
    have hAuth : ensureAuth pw (.ok a :: rest) =
        (true, [Ev.readReg kTerminalAuthStatusAddr], rest) := by
      simp [ensureAuth, ha]
    cases r0 with
    | err => simp [resetSession, hso]
    | ok v =>
      simp [resetSession, ensureSession, hAuth, List.all_append, hso, statusWritesOnly,
        sessionStart_all statusWritesOnly echo rfl (hso (sessionStartCtrl echo)) rest]
  · intro echo pw rs
    have n5 : noAuthLockWrite (Ev.writeReg kTerminalStatusAddr (sessionStartCtrl echo)) = true := by
      cases echo <;> decide
    have n6 : noAuthLockWrite (Ev.writeReg kTerminalStatusAddr (resetCtrl echo)) = true := by
      cases echo <;> decide
    exact resetSession_all _ echo pw rfl rfl (by decide) rfl n5 n6 rs

/-- Witness for the amended C10: a concrete reset run in which the device
reports AuthStatus 1 touches no register other than Status/Control. -/
theorem reset_preserves_auth_when_authed_witness :
    ((resetSession true [] [.ok 0, .ok 1, .ok 1]).2).all statusWritesOnly = true :=
  reset_preserves_auth_when_authed.1 true [] (.ok 0) 1 [.ok 1] (by decide)

/-- Claim C3 counterexample: a requested session reset that fails (here the
restarted session never reports READY before the poll budget is
exhausted) makes `main` return without writing 0 to AuthCmd: the trace
releases the device with no lock write. -/
theorem reset_failure_skips_lock :
    Ev.writeReg kTerminalAuthCmdAddr 0 ∉
      mainTail true true [112] [.ok 0, .ok 1, .ok 0, .ok 0, .ok 0] [] := by
  decide

/-- Claim C3 (amended): on the normal-exit, interactive-loop-error and
one-shot-error paths — that is, whenever no session reset was requested or
the requested reset succeeded — `main` writes 0 to AuthCmd
(`terminal.lock`) and only afterwards releases the device; when a
requested reset fails, `main` returns without the lock write. -/
theorem lock_before_release_on_exit (doReset echo : Bool) (pw : List Nat)
    (rs : List Reply) (loopTrace : List Ev)
    (h : doReset = false ∨ (resetSession echo pw rs).1 = true) :
    ∃ pre, mainTail doReset echo pw rs loopTrace =
      pre ++ [Ev.writeReg kTerminalAuthCmdAddr 0, Ev.shutdown] := by
  rcases h with h | h
  · exact ⟨loopTrace, by simp [mainTail, h]⟩
  · cases doReset with
    | false => exact ⟨loopTrace, by simp [mainTail]⟩
    | true => exact ⟨(resetSession echo pw rs).2 ++ loopTrace, by simp [mainTail, h]⟩

/-- Witness for the amended C3: with no reset requested, the trace ends
with the AuthCmd lock write followed by the device release. -/
theorem lock_before_release_on_exit_witness :
    ∃ pre, mainTail false true [] [] [] =
      pre ++ [Ev.writeReg kTerminalAuthCmdAddr 0, Ev.shutdown] :=
  lock_before_release_on_exit false true [] [] [] (Or.inl rfl)

/-- Claim C4 counterexample: with the line buffer holding "exit", a lone CR
makes the host write exactly four backspace bytes — and no newline — to
the TTY Data register before terminating the loop; the write the claim
predicts (four backspaces followed by a newline) is not what is sent. -/
theorem exit_intercept_counterexample :
    (v2Burst (bytesOf "exit") [13]).writes = [[8, 8, 8, 8]] ∧
    (v2Burst (bytesOf "exit") [13]).writes ≠ [[8, 8, 8, 8, 10]] ∧
    (v2Burst (bytesOf "exit") [13]).exitRequested = true := by
  decide

/-- Claim C4 (amended): when a CR or LF is processed with the accumulated
line equal to "exit", the pending send buffer plus exactly four backspace
bytes — with no trailing newline — is flushed to the TTY Data register,
the loop-exit flag is set and the line buffer cleared; neither the
terminating CR/LF nor anything else is forwarded by this step, so with an
empty pending buffer the device receives exactly the four backspaces. -/
theorem exit_intercept_sends_backspaces (t : List Nat) (w ftr : List (List Nat)) (e : Bool) :
    v2Step ⟨bytesOf "exit", t, w, e, ftr⟩ 13 =
      ⟨[], [], w ++ [t ++ [8, 8, 8, 8]], true, ftr⟩ ∧
    v2Step ⟨bytesOf "exit", t, w, e, ftr⟩ 10 =
      ⟨[], [], w ++ [t ++ [8, 8, 8, 8]], true, ftr⟩ ∧
    v2Burst (bytesOf "exit") [13] = ⟨[], [], [[8, 8, 8, 8]], true, []⟩ := by
  refine ⟨?_, ?_, by decide⟩ <;> simp [v2Step]

/-- Tokens "u3vget" and "u3vput" differ. -/
theorem u3vput_ne_u3vget : bytesOf "u3vput" ≠ bytesOf "u3vget" := by decide

/-- Claim C5 counterexample: the command "u3vget a" has first token
`u3vget` but only two tokens; the runner handles it as a usage error
rather than sending it to the device, and returns success even when
sending and draining would both fail — contradicting the claim's
"otherwise the command is sent" clause. -/
theorem runOnce_malformed_not_sent :
    runOnceAction (bytesOf "u3vget a") = .usage ∧
    runOnceAction (bytesOf "u3vget a") ≠ .sendAndDrain ∧
    runOnceResult (bytesOf "u3vget a") true true false false = true := by
  decide

/-- Claim C5 (amended): if the first token is `u3vget`/`u3vput` with
exactly 3 tokens, the corresponding transfer runs and its success
determines the result; with any other token count the runner prints a
usage message and returns success without sending; only when the first
token is neither (or the line has no tokens) is the command sent to the
device and the output drained once, success accordingly. -/
theorem runOnce_dispatch (line : List Nat) (dlOk ulOk sendOk drainOk : Bool) :
    (∀ a b, splitTokens line = [bytesOf "u3vget", a, b] →
        runOnceAction line = .download a b ∧
        runOnceResult line dlOk ulOk sendOk drainOk = dlOk) ∧
    (∀ a b, splitTokens line = [bytesOf "u3vput", a, b] →
        runOnceAction line = .upload a b ∧
        runOnceResult line dlOk ulOk sendOk drainOk = ulOk) ∧
    (∀ op rest, splitTokens line = op :: rest →
        (op = bytesOf "u3vget" ∨ op = bytesOf "u3vput") → rest.length ≠ 2 →
        runOnceAction line = .usage ∧
        runOnceResult line dlOk ulOk sendOk drainOk = true) ∧
    (∀ op rest, splitTokens line = op :: rest →
        op ≠ bytesOf "u3vget" → op ≠ bytesOf "u3vput" →
        runOnceAction line = .sendAndDrain ∧
        runOnceResult line dlOk ulOk sendOk drainOk = (sendOk && drainOk)) ∧
    (splitTokens line = [] →
        runOnceAction line = .sendAndDrain ∧
        runOnceResult line dlOk ulOk sendOk drainOk = (sendOk && drainOk)) := by
  refine ⟨?_, ?_, ?_, ?_, ?_⟩
  · intro a b h
    have hact : runOnceAction line = .download a b := by
      simp [runOnceAction, h]
    exact ⟨hact, by simp [runOnceResult, hact]⟩
  · intro a b h
    have hact : runOnceAction line = .upload a b := by
      simp [runOnceAction, h, u3vput_ne_u3vget]
    exact ⟨hact, by simp [runOnceResult, hact]⟩
  · intro op rest h hop hlen
    have hact : runOnceAction line = .usage := by
      rcases hop with rfl | rfl
      · simp [runOnceAction, h, hlen]
      · simp [runOnceAction, h, hlen, u3vput_ne_u3vget]
    exact ⟨hact, by simp [runOnceResult, hact]⟩
  · intro op rest h h1 h2
    have hact : runOnceAction line = .sendAndDrain := by
      simp [runOnceAction, h, h1, h2]
    exact ⟨hact, by simp [runOnceResult, hact]⟩
  · intro h
    have hact : runOnceAction line = .sendAndDrain := by
      simp [runOnceAction, h]
    exact ⟨hact, by simp [runOnceResult, hact]⟩

/-- Witness for the amended C5: a well-formed u3vget runs the download, a
malformed one is a usage error, an ordinary command is sent and drained. -/
theorem runOnce_dispatch_witness :
    runOnceAction (bytesOf "u3vget /tmp/a ./a") =
      .download (bytesOf "/tmp/a") (bytesOf "./a") ∧
    runOnceAction (bytesOf "u3vget a") = .usage ∧
    runOnceAction (bytesOf "ls -l") = .sendAndDrain :=
  ⟨((runOnce_dispatch (bytesOf "u3vget /tmp/a ./a") true true true true).1
      (bytesOf "/tmp/a") (bytesOf "./a") (by decide)).1,
   ((runOnce_dispatch (bytesOf "u3vget a") true true true true).2.2.1
      (bytesOf "u3vget") [bytesOf "a"] (by decide) (Or.inl rfl) (by decide)).1,
   ((runOnce_dispatch (bytesOf "ls -l") true true true true).2.2.2.1
      (bytesOf "ls") [bytesOf "-l"] (by decide) (by decide) (by decide)).1⟩

/-- Claim C6: an empty remote path fails with `PathRequired` before any
register write; a path of length 0x5F is accepted and staged NUL-padded
into the full 0x60-byte FilePath area; a path of length 0x60 or more
fails with `PathTooLong`. -/
theorem prepareFilePath_bounds :
    (∀ a b : Bool, prepareFilePath [] a b = ([], .error .PathRequired)) ∧
    (∀ p : List Nat, p.length = 0x5F →
        prepareFilePath p true true =
          ([Ev.writeReg kTerminalFileCmdAddr kFileCmdReset,
            Ev.writeMem kTerminalFilePathAddr (p ++ [0])], .ok ()) ∧
        (p ++ [0]).length = 0x60) ∧
    (∀ (p : List Nat) (b : Bool), 0x60 ≤ p.length →
        prepareFilePath p true b =
          ([Ev.writeReg kTerminalFileCmdAddr kFileCmdReset], .error .PathTooLong)) := by
  refine ⟨fun a b => rfl, ?_, ?_⟩
  · intro p hlen
    have hne : p ≠ [] := by
      intro hc; rw [hc] at hlen; simp at hlen
    constructor
    · simp [prepareFilePath, hne, kTerminalFilePathCapacity, hlen]
    · simp [hlen]
  · intro p b hlen
    have hne : p ≠ [] := by
      intro hc; rw [hc] at hlen; simp at hlen
    simp [prepareFilePath, hne, kTerminalFilePathCapacity, hlen]

/-- Witness for C6: the three concrete boundary paths (empty, 0x5F bytes of
'a', 0x60 bytes of 'a'). -/
theorem prepareFilePath_bounds_witness :
    prepareFilePath [] true true = ([], .error .PathRequired) ∧
    (prepareFilePath (List.replicate 0x5F 97) true true).2 = .ok () ∧
    prepareFilePath (List.replicate 0x60 97) true true =
      ([Ev.writeReg kTerminalFileCmdAddr kFileCmdReset], .error .PathTooLong) :=
  ⟨prepareFilePath_bounds.1 true true,
   by rw [(prepareFilePath_bounds.2.1 (List.replicate 0x5F 97) (by simp)).1],
   prepareFilePath_bounds.2.2 (List.replicate 0x60 97) true (by simp)⟩

/-- Every chunk produced by the upload slicer is at most one FileData
window wide. -/
theorem uploadChunksGo_le (fuel : Nat) :
    ∀ data c : List Nat, c ∈ uploadChunksGo fuel data →
      c.length ≤ kTerminalFileDataWindow := by
  induction fuel with
  | zero => intro data c h; simp [uploadChunksGo] at h
  | succ n ih =>
    intro data c h
    by_cases hd : data = []
    · simp [uploadChunksGo, hd] at h
    · simp only [uploadChunksGo, if_neg hd, List.mem_cons] at h
      rcases h with rfl | h
      · exact List.length_take_le kTerminalFileDataWindow data
      · exact ih _ c h

/-- The upload slicer loses no bytes: the chunks concatenate back to the
source, provided enough fuel (the wrapper always supplies enough). -/
theorem uploadChunksGo_flatten (fuel : Nat) :
    ∀ data : List Nat, data.length ≤ fuel → (uploadChunksGo fuel data).flatten = data := by
  induction fuel with
  | zero =>
    intro data h
    have hd : data = [] := List.length_eq_zero.mp (Nat.le_zero.mp h)
    simp [uploadChunksGo, hd]
  | succ n ih =>
    intro data h
    by_cases hd : data = []
    · simp [uploadChunksGo, hd]
    · have h1 : data.length ≠ 0 := fun hc => hd (List.length_eq_zero.mp hc)
      have hlen : (data.drop kTerminalFileDataWindow).length ≤ n := by
        simp only [List.length_drop, kTerminalFileDataWindow]
        omega
      simp only [uploadChunksGo, if_neg hd, List.flatten_cons]
      rw [ih _ hlen, List.take_append_drop]

/-- Claim C7 counterexample: when FileDataAvail reports 0x80, the download
loop requests 0x80 bytes from the FileData window in a single
transaction, exceeding the 0x40 window width the claim asserts. -/
theorem download_read_exceeds_window :
    Ev.readMem kTerminalFileDataAddr 128 ∈ downloadPump [128] ∧
    ¬(128 ≤ kTerminalFileDataWindow) := by
  decide

/-- Every FileData read the download pump issues requests exactly a
reported nonzero FileDataAvail value truncated to 16 bits. -/
theorem downloadPump_readMem : ∀ (rs : List Nat) (n : Nat),
    Ev.readMem kTerminalFileDataAddr n ∈ downloadPump rs →
    ∃ a, a ∈ rs ∧ a ≠ 0 ∧ n = a % 65536
  | [], n, h => by simp [downloadPump] at h
  | [0], n, h => by simp [downloadPump] at h
  | 0 :: st :: rest, n, h => by
    by_cases h1 : st &&& kFileStatusError ≠ 0
    · simp [downloadPump, h1] at h
    · by_cases h2 : st &&& kFileStatusEof ≠ 0
      · simp [downloadPump, h1, h2] at h
      · simp only [downloadPump, if_neg h1, if_neg h2, List.mem_cons] at h
        rcases h with h | h | h
        · exact absurd h (by simp)
        · exact absurd h (by simp)
        · obtain ⟨a, ha, hane, heq⟩ := downloadPump_readMem rest n h
          exact ⟨a, List.mem_cons_of_mem _ (List.mem_cons_of_mem _ ha), hane, heq⟩
  | (m + 1) :: rest, n, h => by
    simp only [downloadPump, List.mem_cons] at h
    rcases h with h | h | h
    · exact absurd h (by simp)
    · simp only [Ev.readMem.injEq] at h
      exact ⟨m + 1, List.mem_cons_self _ _, Nat.succ_ne_zero m, h.2⟩
    · obtain ⟨a, ha, hane, heq⟩ := downloadPump_readMem rest n h
      exact ⟨a, List.mem_cons_of_mem _ ha, hane, heq⟩

/-- Claim C7 (amended): every upload transaction writes at most 0x40 bytes
to the FileData window (and the chunks reassemble the source exactly),
but a download read requests exactly the reported FileDataAvail value
truncated to 16 bits, with no clamp to the 0x40 window. -/
theorem file_data_window_sizes :
    (∀ data c : List Nat, Ev.writeMem kTerminalFileDataAddr c ∈ uploadWrites data →
        c.length ≤ kTerminalFileDataWindow) ∧
    (∀ data : List Nat, (uploadChunks data).flatten = data) ∧
    (∀ (rs : List Nat) (n : Nat), Ev.readMem kTerminalFileDataAddr n ∈ downloadPump rs →
        ∃ a, a ∈ rs ∧ a ≠ 0 ∧ n = a % 65536) := by
  refine ⟨?_, ?_, downloadPump_readMem⟩
  · intro data c h
    simp only [uploadWrites, List.mem_map] at h
    obtain ⟨c2, hc2, heq⟩ := h
    injection heq with h1 h2
    subst h2
    exact uploadChunksGo_le data.length data _ hc2
  · intro data
    exact uploadChunksGo_flatten data.length data (Nat.le_refl _)

/-- Witness for the amended C7: a one-chunk upload and the 0x80 download
read of the counterexample. -/
theorem file_data_window_sizes_witness :
    ([5] : List Nat).length ≤ kTerminalFileDataWindow ∧
    (∃ a, a ∈ [128] ∧ a ≠ 0 ∧ 128 = a % 65536) :=
  ⟨file_data_window_sizes.1 [5] [5] (by decide),
   file_data_window_sizes.2.2 [128] 128 (by decide)⟩

/-- Claim C8: after a successful `initialize`, the session's chunk hint
equals the ChunkHint register value whenever that value is nonzero and
equals 512 when the device reports zero; when the ChunkHint read fails
outright, neither guarded case applies and the pre-existing default 4096
is kept. -/
theorem init_chunk_hint :
    (∀ (hdr : Option (Nat × Nat)) (verReg : Option Nat) (ch : Nat) (r : TermInit),
        initTerminal hdr verReg (some ch) = some r → ch ≠ 0 → r.chunkHint = ch) ∧
    (∀ (hdr : Option (Nat × Nat)) (verReg : Option Nat) (r : TermInit),
        initTerminal hdr verReg (some 0) = some r → r.chunkHint = 512) ∧
    (∀ (hdr : Option (Nat × Nat)) (verReg : Option Nat) (r : TermInit),
        initTerminal hdr verReg none = some r → r.chunkHint = 4096) := by
  refine ⟨?_, ?_, ?_⟩
  · intro hdr verReg ch r h hch
    rcases hdr with - | ⟨m, v0⟩
    · simp [initTerminal] at h
    · by_cases hm : m ≠ kTerminalMagic
      · simp [initTerminal, hm] at h
      · simp only [initTerminal, if_neg hm, Option.some.injEq] at h
        rw [← h]
        simp [hch]
  · intro hdr verReg r h
    rcases hdr with - | ⟨m, v0⟩
    · simp [initTerminal] at h
    · by_cases hm : m ≠ kTerminalMagic
      · simp [initTerminal, hm] at h
      · simp only [initTerminal, if_neg hm, Option.some.injEq] at h
        rw [← h]
        simp
  · intro hdr verReg r h
    rcases hdr with - | ⟨m, v0⟩
    · simp [initTerminal] at h
    · by_cases hm : m ≠ kTerminalMagic
      · simp [initTerminal, hm] at h
      · simp only [initTerminal, if_neg hm, Option.some.injEq] at h
        rw [← h]

/-- Witness for C8: concrete successful probes with a nonzero and a zero
chunk-hint reading. -/
theorem init_chunk_hint_witness :
    (⟨2, 7⟩ : TermInit).chunkHint = 7 ∧ (⟨2, 512⟩ : TermInit).chunkHint = 512 :=
  ⟨init_chunk_hint.1 (some (kTerminalMagic, 2)) none 7 ⟨2, 7⟩ rfl (by decide),
   init_chunk_hint.2.1 (some (kTerminalMagic, 2)) none ⟨2, 512⟩ rfl⟩
